import Mathlib

/-!
Verification of the halibot IRC agent (src/irc.py), a bridge between an
IRC server and the halibot message bus.  The file shallowly embeds the
data model and operations of the agent — the WHOIS identity cache, the
event handlers of the IrcClient class, the configuration collection of
IrcAgent.Configurer.configure, the constructor argument wiring of
IrcAgent.init, and the shutdown sequence of IrcAgent.shutdown — and
proves or refutes the specification claims about them.

Conventions of the embedding:
* A WHOIS record (the dict returned by the pydle whois call) is the
  structure WhoisRecord with the two fields the code reads: identified
  and account.
* The whois_cache dict (keyed by nickname) is embedded as the function
  map Cache, sending a nickname to an optional record; none means the
  key is absent.
* The WHOIS network query is an oracle whois : String → WhoisRecord
  supplied as a parameter: the answer of the environment for each
  nickname.
* Effects are made explicit: identity returns, besides its result, the
  updated cache and the number of WHOIS queries it issued; the inbound
  handlers return the dispatched message together with the cache and
  query count.
-/

namespace Irc

/-- WHOIS response record, with the two fields that IrcClient.identity
reads, named "identified" and "account" in the dict (src/irc.py lines
137 and 138). -/
structure WhoisRecord where
  identified : Bool
  account : String
deriving DecidableEq, Repr

/-- Embedding of the whois_cache dict of IrcClient (src/irc.py line 104)
as a function map from nickname to optional record. -/
def Cache : Type := String → Option WhoisRecord

/-- Embedding of a fresh, empty dict. -/
def emptyCache : Cache := fun _ => none

/-- Embedding of the Python dict assignment of rec at key nick. -/
def cacheSet (cache : Cache) (nick : String) (rec : WhoisRecord) : Cache :=
  fun n => if n = nick then some rec else cache n

/-- Embedding of the Python membership test of nick in the cache dict. -/
def cacheMem (cache : Cache) (nick : String) : Bool :=
  (cache nick).isSome

/-- Guarded removal, the exact shape of each invalidation line of
src/irc.py (lines 124, 128, 129): pop the key only when it is a member.
When the key is absent the dict is returned untouched and no error is
raised (the embedding is a total function). -/
def cachePopIfMem (cache : Cache) (key : String) : Cache :=
  if cacheMem cache key then fun n => if n = key then none else cache n
  else cache

/-- Embedding of IrcClient.on_quit (src/irc.py lines 122 to 124): it
invalidates the cache entry for its second parameter, named user, when
present.  The first parameter, named channel, is unused by the body. -/
def on_quit (cache : Cache) (_channel user : String) : Cache :=
  cachePopIfMem cache user

/-- Embedding of IrcClient.on_nick_change (src/irc.py lines 126 to 129):
it invalidates the cache entries for old and for new, each when
present. -/
def on_nick_change (cache : Cache) (old new : String) : Cache :=
  cachePopIfMem (cachePopIfMem cache old) new

/-- Outcome of one IrcClient.identity call: the value returned, the
cache afterwards, and how many WHOIS queries went to the server. -/
structure IdentityResult where
  result : Option String
  cache : Cache
  whoisQueries : Nat

/-- First half of IrcClient.identity (src/irc.py lines 132 to 134): when
nick is not cached, perform the WHOIS and store its result; returns the
cache afterwards and the number of queries issued (0 or 1). -/
def identityCacheStep (whois : String → WhoisRecord) (cache : Cache)
    (nick : String) : Cache × Nat :=
  if cacheMem cache nick then (cache, 0)
  else (cacheSet cache nick (whois nick), 1)

/-- Embedding of IrcClient.identity (src/irc.py lines 131 to 141):
ensure nick is cached (querying WHOIS when it is not), then return the
account name when the cached record is identified, and nothing
otherwise.  The none arm of the match is unreachable: after
identityCacheStep the key is always present. -/
def identity (whois : String → WhoisRecord) (cache : Cache)
    (nick : String) : IdentityResult :=
  let step := identityCacheStep whois cache nick
  match step.1 nick with
  | some rec =>
      { result := if rec.identified then some rec.account else none
        cache := step.1
        whoisQueries := step.2 }
  | none => { result := none, cache := step.1, whoisQueries := step.2 }

/-- Identity field of a Host Message.  In Python, awaiting
self.identity(by) yields a resolved value (an account name or None),
while the bare call self.identity(by) without await yields an unawaited
coroutine object whose body never runs. -/
inductive IdentityField where
  | value (v : Option String)
  | coroutine (nick : String)
deriving DecidableEq, Repr

/-- Embedding of the halibot Message as constructed by the two inbound
handlers (src/irc.py lines 148 and 158): body, author, identity,
origin. -/
structure Message where
  body : String
  author : String
  identity : IdentityField
  origin : String
deriving DecidableEq, Repr

/-- Embedding of IrcClient.on_channel_message (src/irc.py lines 146 to
151): the origin is the agent name, then "/", then the target; the
identity field is the awaited result of identity applied to the author
(the parameter named by in the source); the message is dispatched.
Returns the dispatched message, the cache afterwards, and the number of
WHOIS queries issued. -/
def on_channel_message (whois : String → WhoisRecord) (agentName : String)
    (cache : Cache) (target author text : String) :
    Message × Cache × Nat :=
  let org := agentName ++ "/" ++ target
  let r := identity whois cache author
  (⟨text, author, .value r.result, org⟩, r.cache, r.whoisQueries)

/-- Embedding of IrcClient.on_private_message (src/irc.py lines 156 to
160): the origin is the agent name, then "/", then the author; the
identity keyword argument is the bare call self.identity(by) with no
await, so the field holds an unawaited coroutine object, the coroutine
body never runs, the cache is untouched and no WHOIS query is issued. -/
def on_private_message (agentName : String) (cache : Cache)
    (author text : String) : Message × Cache × Nat :=
  let org := agentName ++ "/" ++ author
  (⟨text, author, .coroutine author, org⟩, cache, 0)

/-- Channel configuration field, polymorphic: either a single channel
identifier or an ordered sequence of them.  The isinstance test of
src/irc.py line 114 distinguishes the two shapes. -/
inductive ChannelConfig where
  | single (c : String)
  | many (cs : List String)
deriving DecidableEq, Repr

/-- Embedding of the loop of src/irc.py lines 119 and 120: one join call
per element, in iteration order. -/
def joinLoop : List String → List String
  | [] => []
  | c :: rest => c :: joinLoop rest

/-- Sequence of join calls made by IrcClient.on_connect (src/irc.py
lines 110 to 120): one call for a string configuration, the loop above
for a list configuration. -/
def on_connect_joins : ChannelConfig → List String
  | .single c => [c]
  | .many cs => joinLoop cs

/-!
Configuration surface.  IrcAgent.Configurer.configure (src/irc.py lines
16 to 33) collects options by calling optionString with a key and a
prompt; each call stores the prompted answer in the options dict under
the key.  The three TLS client-certificate calls are embedded below,
with the exact key and prompt strings of lines 26 to 28 of the source.
-/

/-- Key and prompt of each of the three TLS client-certificate
optionString calls of IrcAgent.Configurer.configure (src/irc.py lines
26 to 28), in source order. -/
def tlsCertificateOptions : List (String × String) :=
  [("tls-certificate-file", "TLS certificate file"),
   ("tls-certificate-keyfile", "TLS certificate keyfile"),
   ("tls-certificate-file", "TLS certificate password")]

/-- Effect on the options dict of running the three TLS
client-certificate prompts in order, given the answer the user gives to
each prompt: each optionString call stores the answer to its prompt
under its key. -/
def configureTlsCertificate (answers : String → String)
    (options : String → Option String) : String → Option String :=
  tlsCertificateOptions.foldl
    (fun opts kp => fun k => if k = kp.1 then some (answers kp.2) else opts k)
    options

/-- Value IrcAgent.init passes as the tls_certificate_file constructor
argument: the config entry under the key "tls-certificate-file"
(src/irc.py line 45). -/
def init_tls_certificate_file (config : String → Option String) :
    Option String :=
  config "tls-certificate-file"

/-- Value IrcAgent.init passes as the tls_certificate_password
constructor argument: as written on src/irc.py line 47, it is the
config entry under the key "tls-certificate-file", not under a password
key. -/
def init_tls_certificate_password (config : String → Option String) :
    Option String :=
  config "tls-certificate-file"

/-!
Event sequences.  For the cache-hit claim we need to speak about what
may happen between two identity calls: quits, nick changes and other
identity lookups, each acting on the cache as the handlers above do.
-/

/-- Cache-affecting event occurring between two identity calls. -/
inductive IrcEvent where
  | quit (channel user : String)
  | nickChange (old new : String)
  | identityQuery (nick : String)
deriving DecidableEq, Repr

/-- Action of one event on the cache, through the embedded handlers. -/
def applyEvent (whois : String → WhoisRecord) (cache : Cache) :
    IrcEvent → Cache
  | .quit ch u => on_quit cache ch u
  | .nickChange o m => on_nick_change cache o m
  | .identityQuery m => (identity whois cache m).cache

/-- Action of a sequence of events on the cache, in order. -/
def applyEvents (whois : String → WhoisRecord) (cache : Cache) :
    List IrcEvent → Cache
  | [] => cache
  | e :: es => applyEvents whois (applyEvent whois cache e) es

/-- Test for an invalidation event involving nickname n: a quit of n, or
a nick change with n on either side. -/
def invalidates (n : String) : IrcEvent → Bool
  | .quit _ u => u == n
  | .nickChange o m => o == n || m == n
  | .identityQuery _ => false

/-!
Shutdown model.  IrcAgent.shutdown (src/irc.py lines 66 to 71) runs
three statements in order: schedule the client disconnect coroutine onto
the event loop of the client thread (run_coroutine_threadsafe), join the
client thread, and stop the event loop.  The client thread executes the
run loop of IrcClient.run inside IrcAgent._run_client: it performs
queued work in order (cache writes from WHOIS lookups, outbound sends,
and submitted coroutines) and the run call returns — the thread exits —
once the disconnect executes.  Thread join blocks the calling thread
until the client thread has terminated, so every event of the client
thread precedes the return of shutdown in the combined trace.
-/

/-- Unit of work executed inside the client thread. -/
inductive CtxAction where
  | cacheWrite (nick : String)
  | sendText (target body : String)
  | disconnect
deriving DecidableEq, Repr

/-- Observable event of the combined two-thread trace. -/
inductive TraceEvent where
  | perform (a : CtxAction)
  | threadExit
  | loopStop
  | shutdownReturn
deriving DecidableEq, Repr

/-- Trace of the client thread: it performs its queued actions in order
and exits once it has executed a disconnect.  A queue that never reaches
a disconnect leaves the thread running (no threadExit event). -/
def runContext : List CtxAction → List TraceEvent
  | [] => []
  | a :: rest =>
      if a = CtxAction.disconnect then [.perform a, .threadExit]
      else .perform a :: runContext rest

/-- Embedding of IrcAgent.shutdown (src/irc.py lines 66 to 71) over the
model above, for a client thread with the given pending work: line 67
appends the disconnect to the work of the client thread; line 68 joins,
so the whole client-thread trace precedes the return; line 71 stops the
event loop after the join, and then shutdown returns. -/
def shutdown (pending : List CtxAction) : List TraceEvent :=
  runContext (pending ++ [CtxAction.disconnect]) ++
    [TraceEvent.loopStop, TraceEvent.shutdownReturn]

/-- Concrete cache used by witnesses: a single entry for the nickname
"alice". -/
def sampleCache : Cache :=
  fun n => if n = "alice" then some ⟨true, "alice_"⟩ else none

/-- Concrete WHOIS oracle used by witnesses: every nickname is
identified, with account name "acct_" of the nickname. -/
def sampleWhois : String → WhoisRecord :=
  fun n => ⟨true, "acct_" ++ n⟩

/-! Helper lemmas about the cache operations. -/

theorem cachePopIfMem_self (cache : Cache) (k : String) :
    cachePopIfMem cache k k = none := by
  unfold cachePopIfMem
  split
  · simp
  · next h =>
      unfold cacheMem at h
      simpa [Option.not_isSome_iff_eq_none] using h

theorem cachePopIfMem_other (cache : Cache) (k : String) {n : String}
    (h : n ≠ k) : cachePopIfMem cache k n = cache n := by
  unfold cachePopIfMem
  split
  · simp [h]
  · rfl

theorem cachePopIfMem_absent (cache : Cache) (k : String)
    (h : cache k = none) : cachePopIfMem cache k = cache := by
  unfold cachePopIfMem cacheMem
  simp [h]

theorem identity_not_mem (w : String → WhoisRecord) (cache : Cache)
    (n : String) (h : cache n = none) :
    (identity w cache n).whoisQueries = 1 ∧
    (identity w cache n).cache n = some (w n) ∧
    (identity w cache n).result =
      (if (w n).identified then some (w n).account else none) := by
  unfold identity identityCacheStep cacheMem cacheSet
  simp [h]

theorem identity_mem (w : String → WhoisRecord) (cache : Cache)
    (n : String) (rec : WhoisRecord) (h : cache n = some rec) :
    (identity w cache n).whoisQueries = 0 ∧
    (identity w cache n).cache = cache ∧
    (identity w cache n).result =
      (if rec.identified then some rec.account else none) := by
  unfold identity identityCacheStep cacheMem
  simp [h]

theorem identity_cached (w : String → WhoisRecord) (cache : Cache)
    (n : String) :
    ∃ rec, (identity w cache n).cache n = some rec ∧
      (identity w cache n).result =
        (if rec.identified then some rec.account else none) := by
  cases h : cache n with
  | none =>
      exact ⟨w n, (identity_not_mem w cache n h).2.1,
        (identity_not_mem w cache n h).2.2⟩
  | some rec =>
      refine ⟨rec, ?_, (identity_mem w cache n rec h).2.2⟩
      rw [(identity_mem w cache n rec h).2.1, h]

theorem identity_preserves (w : String → WhoisRecord) (cache : Cache)
    (m n : String) (h : (cache n).isSome) :
    (identity w cache m).cache n = cache n := by
  unfold identity identityCacheStep cacheMem cacheSet
  by_cases hm : (cache m).isSome
  · simp only [hm, if_true]
    cases hc : cache m <;> simp [hc]
  · by_cases hnm : n = m
    · subst hnm; exact absurd h hm
    · simp [hm, hnm]

theorem applyEvent_preserves (w : String → WhoisRecord) (cache : Cache)
    (n : String) (e : IrcEvent) (hs : (cache n).isSome)
    (h : invalidates n e = false) : applyEvent w cache e n = cache n := by
  cases e with
  | quit ch u =>
      simp only [invalidates, beq_eq_false_iff_ne, ne_eq] at h
      simp only [applyEvent, on_quit]
      exact cachePopIfMem_other cache u (fun hn => h hn.symm)
  | nickChange o m =>
      simp only [invalidates, Bool.or_eq_false_iff, beq_eq_false_iff_ne,
        ne_eq] at h
      simp only [applyEvent, on_nick_change]
      rw [cachePopIfMem_other (cachePopIfMem cache o) m
          (fun hn => h.2 hn.symm),
        cachePopIfMem_other cache o (fun hn => h.1 hn.symm)]
  | identityQuery m =>
      simp only [applyEvent]
      exact identity_preserves w cache m n hs

theorem applyEvents_preserves (w : String → WhoisRecord) (n : String) :
    ∀ (evts : List IrcEvent) (cache : Cache), (cache n).isSome →
      (∀ e ∈ evts, invalidates n e = false) →
      applyEvents w cache evts n = cache n := by
  intro evts
  induction evts with
  | nil => intro cache _ _; rfl
  | cons e es ih =>
      intro cache hs h
      have he : invalidates n e = false := h e (List.mem_cons_self e es)
      have hstep : applyEvent w cache e n = cache n :=
        applyEvent_preserves w cache n e hs he
      have : applyEvents w (applyEvent w cache e) es n
          = applyEvent w cache e n := by
        refine ih (applyEvent w cache e) ?_ ?_
        · rw [hstep]; exact hs
        · intro x hx; exact h x (List.mem_cons_of_mem e hx)
      rw [applyEvents, this, hstep]

theorem runContext_spec (q : List CtxAction)
    (h : CtxAction.disconnect ∈ q) :
    ∃ pre, runContext q =
        pre ++ [TraceEvent.perform CtxAction.disconnect,
                TraceEvent.threadExit] ∧
      ∀ e ∈ pre, ∃ a, a ≠ CtxAction.disconnect ∧ e = TraceEvent.perform a := by
  induction q with
  | nil => cases h
  | cons a rest ih =>
      by_cases ha : a = CtxAction.disconnect
      · subst ha
        exact ⟨[], by simp [runContext], by simp⟩
      · have hrest : CtxAction.disconnect ∈ rest := by
          cases h with
          | head => exact absurd rfl ha
          | tail _ h => exact h
        obtain ⟨pre, hpre, hall⟩ := ih hrest
        refine ⟨TraceEvent.perform a :: pre, ?_, ?_⟩
        · simp [runContext, ha, hpre]
        · intro e he
          cases he with
          | head => exact ⟨a, ha, rfl⟩
          | tail _ he => exact hall e he

/-! Claim theorems. -/

/-- Claim C1 — the dispatched private-message Host Message should carry
the resolved identity value, but src/irc.py line 158 passes
self.identity(by) without await: at the failing input (a private message
from "alice" with text "hi"), the identity field of the constructed
message is an unawaited coroutine object, distinct from every resolved
value (in particular from the resolved account of the oracle), no WHOIS
query is issued, while the channel-message path at the same input
carries the resolved account name. -/
theorem on_private_message_identity_unawaited :
    (on_private_message "irc" emptyCache "alice" "hi").1.identity =
      IdentityField.coroutine "alice" ∧
    IdentityField.coroutine "alice" ≠
      IdentityField.value (some "acct_alice") ∧
    (on_private_message "irc" emptyCache "alice" "hi").2.2 = 0 ∧
    (on_channel_message sampleWhois "irc" emptyCache "#chan" "alice"
        "hi").1.identity = IdentityField.value (some "acct_alice") := by
  refine ⟨rfl, by decide, rfl, by decide⟩

/-- Claim C2 — for a nickname with no cache entry, identity performs one
WHOIS query and stores its result in the cache unconditionally; in all
cases the returned value is the account name of the cached or
just-fetched record when its identified flag is true, and nothing
otherwise. -/
theorem identity_resolution (w : String → WhoisRecord) (cache : Cache)
    (n : String) :
    (cache n = none →
      (identity w cache n).whoisQueries = 1 ∧
      (identity w cache n).cache n = some (w n)) ∧
    ∃ rec, (identity w cache n).cache n = some rec ∧
      (identity w cache n).result =
        (if rec.identified then some rec.account else none) :=
  ⟨fun h => ⟨(identity_not_mem w cache n h).1,
    (identity_not_mem w cache n h).2.1⟩, identity_cached w cache n⟩

/-- Witness for C2 at the concrete input "alice" on an empty cache. -/
theorem identity_resolution_witness :
    (identity sampleWhois emptyCache "alice").whoisQueries = 1 ∧
    (identity sampleWhois emptyCache "alice").cache "alice" =
      some (sampleWhois "alice") :=
  (identity_resolution sampleWhois emptyCache "alice").1 rfl

/-- Claim C3 — after one identity lookup of n, if every event before a
second lookup of n is non-invalidating for n (no quit of n, no nick
change with n on either side), the second lookup issues no WHOIS query
and returns the cached result. -/
theorem identity_cache_hit (w : String → WhoisRecord) (cache : Cache)
    (n : String) (evts : List IrcEvent)
    (h : ∀ e ∈ evts, invalidates n e = false) :
    (identity w (applyEvents w (identity w cache n).cache evts)
        n).whoisQueries = 0 ∧
    (identity w (applyEvents w (identity w cache n).cache evts)
        n).result = (identity w cache n).result := by
  obtain ⟨rec, hc, hr⟩ := identity_cached w cache n
  have hp : applyEvents w (identity w cache n).cache evts n
      = (identity w cache n).cache n :=
    applyEvents_preserves w n evts (identity w cache n).cache
      (by rw [hc]; rfl) h
  have hm := identity_mem w
    (applyEvents w (identity w cache n).cache evts) n rec
    (by rw [hp, hc])
  exact ⟨hm.1, by rw [hm.2.2, hr]⟩

/-- Witness for C3: a quit of another user, a nick change between two
other users and an identity lookup of another user occur between the two
lookups of "alice". -/
theorem identity_cache_hit_witness :
    (identity sampleWhois (applyEvents sampleWhois
        (identity sampleWhois emptyCache "alice").cache
        [IrcEvent.quit "#chan" "bob", IrcEvent.nickChange "bob" "carol",
          IrcEvent.identityQuery "dave"]) "alice").whoisQueries = 0 ∧
    (identity sampleWhois (applyEvents sampleWhois
        (identity sampleWhois emptyCache "alice").cache
        [IrcEvent.quit "#chan" "bob", IrcEvent.nickChange "bob" "carol",
          IrcEvent.identityQuery "dave"]) "alice").result =
      (identity sampleWhois emptyCache "alice").result :=
  identity_cache_hit sampleWhois emptyCache "alice"
    [IrcEvent.quit "#chan" "bob", IrcEvent.nickChange "bob" "carol",
      IrcEvent.identityQuery "dave"] (by decide)

/-- Claim C4 — after on_quit for n, or after on_nick_change with n as
either the old or the new nickname, the cache entry for n is gone, so a
subsequent identity lookup of n issues a fresh WHOIS query and stores
its result. -/
theorem invalidation_fresh_whois (w : String → WhoisRecord)
    (cache : Cache) (ch old new n : String) :
    ((identity w (on_quit cache ch n) n).whoisQueries = 1 ∧
      (identity w (on_quit cache ch n) n).cache n = some (w n)) ∧
    (n = old ∨ n = new →
      (identity w (on_nick_change cache old new) n).whoisQueries = 1 ∧
      (identity w (on_nick_change cache old new) n).cache n =
        some (w n)) := by
  constructor
  · have h : on_quit cache ch n n = none := cachePopIfMem_self cache n
    exact ⟨(identity_not_mem w _ n h).1, (identity_not_mem w _ n h).2.1⟩
  · intro hn
    have h : on_nick_change cache old new n = none := by
      unfold on_nick_change
      rcases hn with h1 | h2
      · subst h1
        by_cases hne : n = new
        · subst hne; exact cachePopIfMem_self _ n
        · rw [cachePopIfMem_other _ new hne]
          exact cachePopIfMem_self cache n
      · subst h2
        exact cachePopIfMem_self _ n
    exact ⟨(identity_not_mem w _ n h).1, (identity_not_mem w _ n h).2.1⟩

/-- Witness for C4 at the cached nickname "alice": a quit of "alice" and
a nick change from "alice" to "bob" each force a fresh WHOIS query. -/
theorem invalidation_fresh_whois_witness :
    (identity sampleWhois (on_quit sampleCache "#chan" "alice")
      "alice").whoisQueries = 1 ∧
    (identity sampleWhois (on_nick_change sampleCache "alice" "bob")
      "alice").whoisQueries = 1 :=
  ⟨((invalidation_fresh_whois sampleWhois sampleCache "#chan" "alice"
      "bob" "alice").1).1,
    ((invalidation_fresh_whois sampleWhois sampleCache "#chan" "alice"
      "bob" "alice").2 (Or.inl rfl)).1⟩

/-- Claim C5 — on connection establishment, a single-string channel
configuration yields exactly one join call with that string, and a
sequence configuration yields one join call per element, each element
exactly once, in the order of the sequence. -/
theorem on_connect_join_calls (c : String) (cs : List String) :
    on_connect_joins (ChannelConfig.single c) = [c] ∧
    on_connect_joins (ChannelConfig.many cs) = cs := by
  refine ⟨rfl, ?_⟩
  show joinLoop cs = cs
  induction cs with
  | nil => rfl
  | cons x xs ih => simp [joinLoop, ih]

/-- Claim C6 — the origin of every dispatched Host Message is the agent
name, "/", then the channel target for a channel message or the author
for a private message; at the concrete inputs of the claim, a channel
event with target "#foo" on agent "irc" yields origin "irc/#foo" and a
private message from "alice" on agent "irc" yields origin "irc/alice". -/
theorem message_origin_format (w : String → WhoisRecord)
    (name : String) (cache : Cache) (target author text : String) :
    (on_channel_message w name cache target author text).1.origin =
      name ++ "/" ++ target ∧
    (on_private_message name cache author text).1.origin =
      name ++ "/" ++ author ∧
    (on_channel_message w "irc" cache "#foo" author text).1.origin =
      "irc/#foo" ∧
    (on_private_message "irc" cache "alice" text).1.origin =
      "irc/alice" :=
  ⟨rfl, rfl, rfl, rfl⟩

/-- Claim C7 — the three TLS client-certificate prompts should use three
distinct keys, and the password constructor argument should receive the
collected password.  In the code the password prompt of src/irc.py line
28 stores its answer under the key "tls-certificate-file" (the same key
as the certificate-file prompt, which it overwrites), no
"tls-certificate-password" key is ever written, and IrcAgent.init line
47 passes the value of the "tls-certificate-file" key as the TLS
certificate password: on a config holding "cert.pem" under the file key
and "hunter2" under a hand-written password key, the password argument
receives "cert.pem". -/
theorem tls_certificate_password_miswired :
    tlsCertificateOptions.map Prod.fst =
      ["tls-certificate-file", "tls-certificate-keyfile",
        "tls-certificate-file"] ∧
    ¬ (tlsCertificateOptions.map Prod.fst).Nodup ∧
    configureTlsCertificate
        (fun p => if p = "TLS certificate file" then "cert.pem"
          else if p = "TLS certificate keyfile" then "key.pem"
          else "hunter2")
        (fun _ => none) "tls-certificate-file" = some "hunter2" ∧
    configureTlsCertificate
        (fun p => if p = "TLS certificate file" then "cert.pem"
          else if p = "TLS certificate keyfile" then "key.pem"
          else "hunter2")
        (fun _ => none) "tls-certificate-password" = none ∧
    init_tls_certificate_password
        (fun k => if k = "tls-certificate-file" then some "cert.pem"
          else if k = "tls-certificate-password" then some "hunter2"
          else none) = some "cert.pem" :=
  ⟨rfl, by decide, by decide, by decide, rfl⟩

/-- Claim C8 — the cache should start empty for every newly constructed
client and never be shared between instances, but whois_cache is
declared as a class attribute (src/irc.py line 104) and only ever
mutated in place, so every IrcClient instance shares the one dict
object.  At the failing input, a second, freshly constructed client
whose cache is the dict left by the first client resolves "alice" with
zero WHOIS queries, returning the record cached by the first client
instead of starting from an empty cache. -/
theorem whois_cache_shared_across_instances :
    (identity sampleWhois
      (identity sampleWhois emptyCache "alice").cache
      "alice").whoisQueries = 0 ∧
    (identity sampleWhois
      (identity sampleWhois emptyCache "alice").cache
      "alice").result = some "acct_alice" ∧
    (identity sampleWhois emptyCache "alice").cache "alice" =
      some ⟨true, "acct_alice"⟩ :=
  ⟨by decide, by decide, by decide⟩

/-- Claim C9 — the shutdown trace: for any pending work of the client
thread, shutdown first has the context perform its queued
non-disconnect actions, then the scheduled disconnect executes inside
the context, then the thread exits, then the event loop is stopped, and
only then does shutdown return as the final event, so no cache write or
send is performed after shutdown returns. -/
theorem shutdown_ordering (pending : List CtxAction) :
    ∃ pre, shutdown pending =
        pre ++ [TraceEvent.perform CtxAction.disconnect,
          TraceEvent.threadExit, TraceEvent.loopStop,
          TraceEvent.shutdownReturn] ∧
      ∀ e ∈ pre, ∃ a, a ≠ CtxAction.disconnect ∧
        e = TraceEvent.perform a := by
  obtain ⟨pre, hpre, hall⟩ :=
    runContext_spec (pending ++ [CtxAction.disconnect])
      (List.mem_append_right pending (List.mem_singleton_self _))
  refine ⟨pre, ?_, hall⟩
  unfold shutdown
  rw [hpre]
  simp

/-- Claim C10 — frame conditions of the invalidation handlers: on_quit
for u changes no entry other than u; on_nick_change changes no entry
other than old and new; and either handler applied when the named
entries are absent leaves the cache entirely unchanged (and, being a
total function, raises no error). -/
theorem invalidation_frame (cache : Cache) (ch u old new n : String) :
    (n ≠ u → on_quit cache ch u n = cache n) ∧
    (cache u = none → on_quit cache ch u = cache) ∧
    (n ≠ old → n ≠ new → on_nick_change cache old new n = cache n) ∧
    (cache old = none → cache new = none →
      on_nick_change cache old new = cache) := by
  refine ⟨fun h => cachePopIfMem_other cache u h,
    fun h => cachePopIfMem_absent cache u h,
    fun h1 h2 => ?_, fun h1 h2 => ?_⟩
  · show cachePopIfMem (cachePopIfMem cache old) new n = cache n
    rw [cachePopIfMem_other _ new h2, cachePopIfMem_other cache old h1]
  · show cachePopIfMem (cachePopIfMem cache old) new = cache
    rw [cachePopIfMem_absent cache old h1]
    exact cachePopIfMem_absent cache new h2

/-- Witness for C10 on the one-entry cache: a quit of "bob" and a nick
change from "bob" to "carol" leave the entry of "alice" unchanged, and
both handlers leave the whole cache unchanged since "bob" and "carol"
are absent. -/
theorem invalidation_frame_witness :
    on_quit sampleCache "#chan" "bob" "alice" =
      some ⟨true, "alice_"⟩ ∧
    on_quit sampleCache "#chan" "bob" = sampleCache ∧
    on_nick_change sampleCache "bob" "carol" "alice" =
      some ⟨true, "alice_"⟩ ∧
    on_nick_change sampleCache "bob" "carol" = sampleCache := by
  have h := invalidation_frame sampleCache "#chan" "bob" "bob" "carol"
    "alice"
  refine ⟨?_, ?_, ?_, ?_⟩
  · rw [h.1 (by decide)]; decide
  · exact h.2.1 (by decide)
  · rw [h.2.2.1 (by decide) (by decide)]; decide
  · exact h.2.2.2 (by decide) (by decide)

end Irc
